import Mathlib

/-
Verification of the verse-retrieval and settings-metadata flows of the
random-quran-verse Obsidian plugin.

The embedding follows the TypeScript source directly:

* `renderVerse` (src/main.ts, code block processor for "quran-verse"):
  the three sequential/parallel REST calls, the logical status-code
  validation, the skeleton/content card state and the 5000 ms retry.
* the retry timer and its cancellation on surface teardown
  (`window.setTimeout` / `clearTimeout` in a `MarkdownRenderChild.onunload`),
  modelled as a small event-step system.
* `QuranSettingTab` (src/settings.ts): `fetchMetadata`, `fetchLanguages`,
  `fetchTranslationEditions`, `fetchAndProcessTafsirs`,
  `getFullLanguageName`, the settings mutations of `display()`, and the
  translation-language dropdown change handler.

Remote endpoints are oracles (`Option`-valued: `none` models a rejected
promise or a payload failing the structural shape check, both of which
throw at the same call site).  JavaScript strings are Lean `String`s;
`localeCompare`-based sorting is modelled as a stable sort in code-point
order (the claims only refer to the first element of the sorted list, not
to the comparator itself); `toLowerCase`/`toUpperCase` are modelled
character by character (`lowerString`/`upperString`; every identifier
involved is ASCII).
-/

namespace RQV

/-! ## Verse fetch flow (src/main.ts) -/

/-- Payload shape `AyahData` from src/main.ts:
`{ number, text, numberInSurah, surah: { number, name, englishName },
edition: { identifier, language, name, direction } }`. -/
structure Surah where
  number : Nat
  name : String
  englishName : String
deriving DecidableEq

structure EditionInfo where
  identifier : String
  language : String
  name : String
  direction : Option String
deriving DecidableEq

structure AyahData where
  number : Nat
  text : String
  numberInSurah : Nat
  surah : Surah
  edition : EditionInfo
deriving DecidableEq

/-- Payload shape `ApiResponse` from src/main.ts: `{ code, status, data }`;
`code` is the logical status code of the alquran.cloud API (200 = success). -/
structure ApiResponse where
  code : Int
  status : String
  data : AyahData
deriving DecidableEq

/-- Requests issued by `renderVerse`: `GET /ayah/{globalIndex}` and
`GET /ayah/{globalIndex}/{editionId}`. -/
inductive Request where
  | ayah (globalIndex : Nat)
  | ayahEdition (globalIndex : Nat) (editionId : String)
deriving DecidableEq

/-- Network oracle: `none` models a rejected `requestUrl` promise. -/
def Net : Type := Request → Option ApiResponse

/-- Identifier of the fixed original-language edition used by the first of
the two parallel calls (`quran-uthmani` in src/main.ts). -/
def uthmaniEdition : String := "quran-uthmani"

/-- Glyph table `"٠١٢٣٤٥٦٧٨٩"` from `toArabicDigits` in src/main.ts. -/
def arabicDigitTable : String := "٠١٢٣٤٥٦٧٨٩"

/-- One application of the replacer in
`num.toString().replace(/\d/g, (d) => digits[parseInt(d)] ?? d)`:
a decimal digit character is replaced by the glyph at the index given by its
numeric value (JavaScript string indexing, with the `?? d` fallback when the
index has no glyph); any character not matched by `/\d/` is left unchanged. -/
def transliterateChar (c : Char) : Char :=
  if c.isDigit then arabicDigitTable.data.getD (c.toNat - '0'.toNat) c else c

/-- Function `toArabicDigits` from src/main.ts, on the integers
(`num.toString()` renders the decimal form, sign included; the regex
replacement maps each digit character through the glyph table). -/
def toArabicDigits (num : Int) : String :=
  String.mk ((toString num).data.map transliterateChar)

/-- State of the verse card at the end of one `renderVerse` attempt.
`skeletonsRemoved` records whether the four `.remove()` calls on the
skeleton elements ran; the two content fields record the created
`quran-arabic` / translation divs; `retryDelayMs` records the delay of a
`window.setTimeout` retry scheduled by the catch handler. -/
structure CardState where
  skeletonsRemoved : Bool
  arabicContent : Option String
  translationContent : Option String
  retryDelayMs : Option Nat
deriving DecidableEq

/-- Card state produced by the catch handler of `renderVerse`: the
skeletons were never removed, no content div was created, and a one-shot
retry was scheduled with `window.setTimeout(..., 5000)`. -/
def failedCard : CardState :=
  { skeletonsRemoved := false
    arabicContent := none
    translationContent := none
    retryDelayMs := some 5000 }

/-- Card state after a fully successful attempt: skeletons removed, the
Arabic div holds the verse text followed by a space, the end-of-ayah glyph
and `toArabicDigits(arData.numberInSurah)`,
the translation div holds `trData.text`, and no retry is pending. -/
def successCard (arJson trJson : ApiResponse) : CardState :=
  { skeletonsRemoved := true
    arabicContent :=
      some (arJson.data.text ++ " ۝" ++ toArabicDigits (Int.ofNat arJson.data.numberInSurah))
    translationContent := some trJson.data.text
    retryDelayMs := none }

/-- Request list of an attempt whose first lookup returned `randomJson`:
the random reference lookup followed by the two `Promise.all` calls, both
keyed by `randomJson.data.number` (the code binds
`const reference = randomJson.data.number` and interpolates `reference`
into both URLs). -/
def attemptRequests (draw : Nat) (randomJson : ApiResponse) (translation : String) :
    List Request :=
  [Request.ayah draw,
   Request.ayahEdition randomJson.data.number uthmaniEdition,
   Request.ayahEdition randomJson.data.number translation]

/-- One `renderVerse` attempt from src/main.ts, given the random draw
(`Math.floor(Math.random() * 6236) + 1`) and the configured translation
edition: returns the requests issued and the resulting card state.  The
try block issues the reference lookup, throws on `code !== 200`, issues
the two edition lookups via `Promise.all` (both are issued even when one
rejects), throws on a rejected promise or a non-200 logical code, and only
then removes the skeletons and renders; the catch handler schedules the
5000 ms retry. -/
def renderVerse (net : Net) (draw : Nat) (translation : String) :
    List Request × CardState :=
  match net (Request.ayah draw) with
  | none => ([Request.ayah draw], failedCard)
  | some randomJson =>
    if randomJson.code ≠ 200 then ([Request.ayah draw], failedCard)
    else
      match net (Request.ayahEdition randomJson.data.number uthmaniEdition),
            net (Request.ayahEdition randomJson.data.number translation) with
      | some arJson, some trJson =>
          if arJson.code ≠ 200 ∨ trJson.code ≠ 200 then
            (attemptRequests draw randomJson translation, failedCard)
          else
            (attemptRequests draw randomJson translation, successCard arJson trJson)
      | some _, none => (attemptRequests draw randomJson translation, failedCard)
      | none, some _ => (attemptRequests draw randomJson translation, failedCard)
      | none, none => (attemptRequests draw randomJson translation, failedCard)

/-! ## Retry timer and surface teardown (src/main.ts catch handler)

The catch handler runs
`const timeoutId = window.setTimeout(() => { if (container.isConnected) void renderVerse(); }, 5000);`
and registers `cleanup.onunload = () => window.clearTimeout(timeoutId)` on a
`MarkdownRenderChild` added to the render context, so tearing the surface
down clears the pending timeout and detaches the card container from the
document.  The two relevant occurrences are modelled as events. -/

inductive SurfaceEvent where
  | teardown
  | timerFire
deriving DecidableEq

/-- State of one failed render attempt with its scheduled retry.
`timerPending` is true while the `setTimeout` handle is neither fired nor
cleared; `attached` models `container.isConnected`; `issuedAfterSchedule`
collects every remote request issued by the retry callback. -/
structure SurfaceState where
  timerPending : Bool
  attached : Bool
  issuedAfterSchedule : List Request
deriving DecidableEq

/-- One event step.  A teardown runs the registered
`onunload = () => window.clearTimeout(timeoutId)` and removes the card
container from the document.  A timer expiry runs the callback only when
the timeout is still pending (a cleared timeout never fires); the callback
re-renders, issuing the requests of `renderVerse`, only when
`container.isConnected` still holds. -/
def surfaceStep (net : Net) (draw : Nat) (translation : String)
    (s : SurfaceState) : SurfaceEvent → SurfaceState
  | SurfaceEvent.teardown => { s with timerPending := false, attached := false }
  | SurfaceEvent.timerFire =>
      if s.timerPending then
        { s with
          timerPending := false
          issuedAfterSchedule :=
            s.issuedAfterSchedule ++
              (if s.attached then (renderVerse net draw translation).1 else []) }
      else s

/-- Runs a sequence of surface events from a given state. -/
def runSurface (net : Net) (draw : Nat) (translation : String)
    (s : SurfaceState) (evs : List SurfaceEvent) : SurfaceState :=
  evs.foldl (surfaceStep net draw translation) s

/-- State right after the catch handler scheduled the retry: the timeout is
pending, the card container is still attached, and nothing has been issued
since. -/
def retryScheduled : SurfaceState :=
  { timerPending := true, attached := true, issuedAfterSchedule := [] }

/-! ## Settings metadata flow (src/settings.ts) -/

/-- Lower-casing `String.prototype.toLowerCase()`, character by character
(all strings compared in the settings flow are ASCII). -/
def lowerString (s : String) : String := String.mk (s.data.map Char.toLower)

/-- Upper-casing `String.prototype.toUpperCase()`, character by character. -/
def upperString (s : String) : String := String.mk (s.data.map Char.toUpper)

/-- Code-point lexicographic strict order on character lists. -/
def lexLt : List Char → List Char → Bool
  | [], [] => false
  | [], _ :: _ => true
  | _ :: _, [] => false
  | a :: as, b :: bs => if a = b then lexLt as bs else decide (a.toNat < b.toNat)

/-- Code-point comparison used to model `a.localeCompare(b) <= 0`. -/
def strLe (a b : String) : Bool := !(lexLt b.data a.data)

/-- Entry of the `languages` / `tafsirLanguages` lists:
`{ code: string, name: string }`. -/
structure LanguageEntry where
  code : String
  name : String
deriving DecidableEq

/-- Record `Edition` from src/settings.ts. -/
structure Edition where
  identifier : String
  language : String
  name : String
  englishName : String
  format : String
  type : String
  direction : Option String
deriving DecidableEq

/-- Record `CdnTafsirEdition` from src/settings.ts (entries of the
`editions.json` index of the tafsir CDN). -/
structure CdnTafsirEdition where
  author_name : String
  id : Nat
  language_name : String
  name : String
  slug : String
  source : String
deriving DecidableEq

/-- Persisted `QuranSettings` record from src/settings.ts. -/
structure QuranSettings where
  translation : String
  language : String
  fontSize : String
  backgroundColor : String
  accentColor : String
  tafsir : String
  tafsirName : String
  tafsirLanguage : String
  font : String
deriving DecidableEq

/-- State of the `QuranSettingTab` together with the plugin settings and
the observable effects: `savedSettings` logs each `plugin.saveSettings()`
call (the snapshot persisted), `notices` logs each `new Notice(...)`, and
`remoteCalls` logs each `requestUrl` URL. -/
structure TabState where
  languages : List LanguageEntry
  tafsirLanguages : List LanguageEntry
  editions : List Edition
  tafsirEditions : List Edition
  isLoadingMetadata : Bool
  settings : QuranSettings
  savedSettings : List QuranSettings
  notices : List String
  remoteCalls : List String
deriving DecidableEq

/-- Remote and host oracles of the metadata flow.  `intl` models
`new Intl.DisplayNames(["en"], { type: "language" }).of(code)`: `none`
stands for an exception, an unavailable `Intl.DisplayNames`, or an
`undefined` result.  The three catalog oracles return the parsed payload
when the request resolved and the payload passed its structural shape
check, `none` otherwise (both failure kinds throw at the same call site). -/
structure MetaOracles where
  intl : String → Option String
  langCatalog : Option (List String)
  editionCatalog : String → Option (List Edition)
  tafsirCatalog : Option (List CdnTafsirEdition)

/-- Manual override table `customNames` of `getFullLanguageName`
(src/settings.ts lines 902-905): "ber" maps to "Berber" and "ce" to
"Chechen",
looked up by the lower-cased code. -/
def customLanguageNames (code : String) : Option String :=
  if code = "ber" then some "Berber"
  else if code = "ce" then some "Chechen"
  else none

/-- Method `getFullLanguageName` of `QuranSettingTab` (src/settings.ts
lines 901-918): the manual override table is checked first on the
lower-cased code; otherwise `Intl.DisplayNames` is consulted
(`languageNames.of(code) || code`, so an undefined or empty result falls
back to the code); when `Intl.DisplayNames` is unavailable or throws, the
code itself is returned unchanged. -/
def getFullLanguageName (intl : String → Option String) (code : String) : String :=
  match customLanguageNames (lowerString code) with
  | some n => n
  | none =>
    match intl code with
    | some s => if s = "" then code else s
    | none => code

/-- Expression `langName.charAt(0).toUpperCase() + langName.slice(1)`
used when building the tafsir language entries. -/
def capitalizeFirst (s : String) : String :=
  match s.data with
  | [] => ""
  | c :: rest => String.mk (c.toUpper :: rest)

/-- Sort used for both language lists:
`.sort((a, b) => a.name.localeCompare(b.name))`, modelled as a stable sort
with `localeCompare` replaced by code-point order on the names. -/
def sortByName (l : List LanguageEntry) : List LanguageEntry :=
  List.insertionSort (fun a b => strLe a.name b.name = true) l

/-- Expression `Array.from(new Set(...))`: deduplication keeping the first
occurrence, in insertion order. -/
def dedupFirst (l : List String) : List String :=
  l.foldl (fun acc a => if a ∈ acc then acc else acc ++ [a]) []

/-- Expression
`this.languages.find(l => l.name.toLowerCase() === langName.toLowerCase())?.code || langName.toLowerCase()`:
the language catalog is searched by case-insensitive name match; a missing
match (or an empty matched code, which is falsy) synthesizes the code by
lower-casing the language name. -/
def languageCodeFor (languages : List LanguageEntry) (langName : String) : String :=
  match languages.find? (fun l => lowerString l.name = lowerString langName) with
  | some l => if l.code = "" then lowerString langName else l.code
  | none => lowerString langName

/-- Derivation of `this.tafsirLanguages` in `fetchAndProcessTafsirs`
(src/settings.ts lines 853-857): distinct `language_name` values of the
tafsir catalog, mapped to `{ code, name }` entries and sorted by name. -/
def deriveTafsirLanguages (languages : List LanguageEntry)
    (tafsirJson : List CdnTafsirEdition) : List LanguageEntry :=
  sortByName ((dedupFirst (tafsirJson.map (fun t => t.language_name))).map
    (fun langName => ⟨languageCodeFor languages langName, capitalizeFirst langName⟩))

/-- Expression `this.tafsirLanguages.length > 0 ? this.tafsirLanguages[0]!.code : "en"` (ternary written with double quotes here). -/
def firstTafsirLanguageCode : List LanguageEntry → String
  | [] => "en"
  | l :: _ => l.code

/-- Value of `this.plugin.settings.tafsirLanguage` right after the
reconciliation step of `fetchAndProcessTafsirs` (src/settings.ts lines
860-864): kept when it appears among the derived tafsir language codes,
replaced by the first code of the sorted list (or "en" when the list is
empty) otherwise. -/
def resolvedTafsirLanguage (tafsirLangs : List LanguageEntry) (current : String) : String :=
  if tafsirLangs.any (fun l => l.code = current) then current
  else firstTafsirLanguageCode tafsirLangs

/-- Filter and mapping of the tafsir catalog by the configured tafsir
language (src/settings.ts lines 867-877): keeps the entries whose
`language_name` matches `getFullLanguageName(tafsirLanguage)`
case-insensitively and reshapes them into `Edition` records. -/
def tafsirEditionsFor (intl : String → Option String)
    (tafsirJson : List CdnTafsirEdition) (tafsirLanguage : String) : List Edition :=
  (tafsirJson.filter
      (fun t =>
        lowerString t.language_name = lowerString (getFullLanguageName intl tafsirLanguage))).map
    (fun t =>
      { identifier := t.slug
        language := t.language_name
        name := t.name
        englishName := t.author_name
        format := "text"
        type := "tafsir"
        direction := none })

/-- Filter keeping editions whose format is "text" and whose type is
"translation", applied to the
translation edition catalog. -/
def isTextTranslation (e : Edition) : Bool :=
  e.format = "text" && e.type = "translation"

/-- Method `plugin.saveSettings()` as observed by the settings flow: the
current settings snapshot is persisted (appended to the log). -/
def saveSettings (s : TabState) : TabState :=
  { s with savedSettings := s.savedSettings ++ [s.settings] }

/-- URL of the language catalog request. -/
def languagesUrl : String := "https://api.alquran.cloud/v1/edition/language"

/-- URL of the translation edition catalog request for a language. -/
def editionsUrl (language : String) : String :=
  "https://api.alquran.cloud/v1/edition/language/" ++ language

/-- URL of the tafsir edition index request. -/
def tafsirIndexUrl : String :=
  "https://cdn.jsdelivr.net/gh/spa5k/tafsir_api@main/tafsir/editions.json"

/-- Method `fetchLanguages` (src/settings.ts lines 803-822): fetches the
language catalog, maps each code through `getFullLanguageName` and sorts by
name; a rejected request or an invalid shape notices the user and
rethrows (`Except.error`). -/
def fetchLanguages (o : MetaOracles) (s : TabState) : Except TabState TabState :=
  let s := { s with remoteCalls := s.remoteCalls ++ [languagesUrl] }
  match o.langCatalog with
  | some data =>
      Except.ok
        { s with
          languages :=
            sortByName (data.map (fun lang => ⟨lang, getFullLanguageName o.intl lang⟩)) }
  | none =>
      Except.error
        { s with
          notices := s.notices ++ ["Failed to fetch languages. Check your internet connection."] }

/-- Method `fetchTranslationEditions` (src/settings.ts lines 824-840):
fetches the edition catalog for the configured translation language and
keeps the textual translation entries; a rejected request or an invalid
shape notices the user and rethrows. -/
def fetchTranslationEditions (o : MetaOracles) (s : TabState) : Except TabState TabState :=
  let s := { s with remoteCalls := s.remoteCalls ++ [editionsUrl s.settings.language] }
  match o.editionCatalog s.settings.language with
  | some data =>
      Except.ok { s with editions := data.filter isTextTranslation }
  | none =>
      Except.error
        { s with
          notices := s.notices ++ ["Failed to fetch translations. Check your internet connection."] }

/-- Method `fetchAndProcessTafsirs` (src/settings.ts lines 842-899):
fetches the tafsir index, derives the tafsir language list, reconciles the
configured tafsir language (replacing and persisting it when absent),
filters the tafsir catalog by the possibly replaced language, and then
reconciles the configured tafsir edition: replaced by the first entry and
persisted when invalid, display name refreshed in memory when valid, both
fields cleared and persisted when the filtered catalog is empty. -/
def fetchAndProcessTafsirs (o : MetaOracles) (s : TabState) : Except TabState TabState :=
  let s := { s with remoteCalls := s.remoteCalls ++ [tafsirIndexUrl] }
  match o.tafsirCatalog with
  | none =>
      Except.error
        { s with
          notices :=
            s.notices ++ ["Failed to fetch tafsir editions. Check your internet connection."] }
  | some tafsirJson =>
    let s := { s with tafsirLanguages := deriveTafsirLanguages s.languages tafsirJson }
    let s :=
      if s.tafsirLanguages.any (fun l => l.code = s.settings.tafsirLanguage) then s
      else
        saveSettings
          { s with
            settings :=
              { s.settings with tafsirLanguage := firstTafsirLanguageCode s.tafsirLanguages } }
    let s :=
      { s with tafsirEditions := tafsirEditionsFor o.intl tafsirJson s.settings.tafsirLanguage }
    match s.tafsirEditions with
    | [] =>
        Except.ok
          (saveSettings { s with settings := { s.settings with tafsir := "", tafsirName := "" } })
    | first :: _ =>
        if s.settings.tafsir = "" || !(s.tafsirEditions.any (fun t => t.identifier = s.settings.tafsir)) then
          Except.ok
            (saveSettings
              { s with
                settings :=
                  { s.settings with tafsir := first.identifier, tafsirName := first.name } })
        else
          let newName :=
            match s.tafsirEditions.find? (fun t => t.identifier = s.settings.tafsir) with
            | some t => if t.name = "" then s.settings.tafsir else t.name
            | none => s.settings.tafsir
          Except.ok { s with settings := { s.settings with tafsirName := newName } }

/-- Lookup in the `options` record built by the tafsir edition dropdown of
`display()` (`options[e.identifier] = e.name`, later entries overwriting
earlier ones). -/
def optionName (editions : List Edition) (id : String) : Option String :=
  (editions.reverse.find? (fun e => e.identifier = id)).map (fun e => e.name)

/-- Settings mutations performed while `display()` builds the tafsir
edition dropdown (src/settings.ts lines 1119-1151); everything else in
`display()` only constructs UI elements.  With a nonempty catalog an
unset, unknown or falsy-named tafsir id is replaced by the first entry and
persisted; with an empty catalog a nonempty tafsir id is cleared and
persisted. -/
def displayRepair (s : TabState) : TabState :=
  match s.tafsirEditions with
  | first :: _ =>
      if s.settings.tafsir = "" ||
          (match optionName s.tafsirEditions s.settings.tafsir with
           | none => true
           | some n => n = "") then
        saveSettings
          { s with
            settings :=
              { s.settings with tafsir := first.identifier, tafsirName := first.name } }
      else s
  | [] =>
      if s.settings.tafsir ≠ "" then
        saveSettings { s with settings := { s.settings with tafsir := "", tafsirName := "" } }
      else s

/-- Outer catch handler of `fetchMetadata` (src/settings.ts lines
794-797). -/
def metadataCatch (s : TabState) : TabState :=
  { s with
    notices := s.notices ++ ["An unexpected error occurred. Please check the console for details."] }

/-- Method `fetchMetadata` (src/settings.ts lines 786-801): a re-entrant
call while `isLoadingMetadata` is set returns immediately; otherwise the
flag is set, the three fetch steps run in sequence (a throw from any step
aborts the remaining ones and is swallowed by the outer catch after a
notice), and the finally block resets the flag and re-renders the tab
(`this.display()`). -/
def fetchMetadata (o : MetaOracles) (s : TabState) : TabState :=
  if s.isLoadingMetadata then s
  else
    let s := { s with isLoadingMetadata := true }
    let s :=
      match fetchLanguages o s with
      | Except.error s => metadataCatch s
      | Except.ok s =>
        match fetchTranslationEditions o s with
        | Except.error s => metadataCatch s
        | Except.ok s =>
          match fetchAndProcessTafsirs o s with
          | Except.error s => metadataCatch s
          | Except.ok s => s
    displayRepair { s with isLoadingMetadata := false }

/-- Change handler of the translation-language dropdown (src/settings.ts
lines 1050-1066): stores the newly selected language code, clears the
in-memory edition list, refetches the edition catalog for that language
(substituting the first filtered edition as the configured translation
when one exists, noticing on failure), persists, and re-renders the tab. -/
def onTranslationLanguageChange (o : MetaOracles) (val : String) (s : TabState) : TabState :=
  let s := { s with settings := { s.settings with language := val }, editions := [] }
  let s :=
    match fetchTranslationEditions o s with
    | Except.ok s =>
        match s.editions with
        | first :: _ => { s with settings := { s.settings with translation := first.identifier } }
        | [] => s
    | Except.error s =>
        { s with
          notices :=
            s.notices ++ ["Failed to auto-select translation. Check your internet connection."] }
  displayRepair (saveSettings s)

/-! ## Concrete sample data used to evaluate the theorems -/

/-- Sample payload with a given global index. -/
def sampleAyah (n : Nat) : AyahData :=
  { number := n, text := "", numberInSurah := 5,
    surah := { number := 1, name := "", englishName := "" },
    edition := { identifier := "", language := "", name := "", direction := none } }

/-- Sample network in which the reference lookup renumbers the draw to 777
and the edition lookups echo the index they were keyed by. -/
def renumberingNet : Net := fun r =>
  match r with
  | Request.ayah _ => some { code := 200, status := "OK", data := sampleAyah 777 }
  | Request.ayahEdition g _ => some { code := 200, status := "OK", data := sampleAyah g }

/-- Sample network in which every request rejects. -/
def downNet : Net := fun _ => none

/-- Locale-name oracle of an environment where `Intl.DisplayNames` is
unavailable or resolves nothing. -/
def noIntl : String → Option String := fun _ => none

/-- Locale-name oracle resolving only the code "de". -/
def germanIntl : String → Option String :=
  fun c => if c = "de" then some "German" else none

/-- Sample persisted settings whose translation edition id is stale. -/
def sampleSettings : QuranSettings :=
  { translation := "bad.translation"
    language := "en"
    fontSize := "2.0rem"
    backgroundColor := "var(--background-secondary)"
    accentColor := "var(--interactive-accent)"
    tafsir := "en-kathir"
    tafsirName := "Tafsir Ibn Kathir"
    tafsirLanguage := "en"
    font := "\"Noto Naskh Arabic\"" }

/-- Sample translation edition of the "en" catalog. -/
def sampleEdition : Edition :=
  { identifier := "en.itani", language := "en", name := "Clear Quran",
    englishName := "Clear Quran", format := "text", type := "translation",
    direction := none }

/-- Sample tafsir index entry whose language name is "en". -/
def sampleTafsirEntry : CdnTafsirEdition :=
  { author_name := "Hafiz Ibn Kathir", id := 1, language_name := "en",
    name := "Tafsir Ibn Kathir", slug := "en-kathir", source := "https://example.org" }

/-- Sample tafsir index entry whose language name is "english". -/
def englishTafsirEntry : CdnTafsirEdition :=
  { author_name := "Hafiz Ibn Kathir", id := 1, language_name := "english",
    name := "Tafsir Ibn Kathir", slug := "english-kathir", source := "https://example.org" }

/-- Sample tafsir index entry whose language name is "german". -/
def germanTafsirEntry : CdnTafsirEdition :=
  { author_name := "Ibn Kathir", id := 2, language_name := "german",
    name := "Tafsir auf Deutsch", slug := "de-kathir", source := "https://example.org" }

/-- Oracles of a fully successful refresh whose translation catalog does
not contain the stale configured translation edition id. -/
def staleTranslationOracles : MetaOracles :=
  { intl := noIntl
    langCatalog := some ["en"]
    editionCatalog := fun lang => if lang = "en" then some [sampleEdition] else none
    tafsirCatalog := some [sampleTafsirEntry] }

/-- Initial tab state for the refresh scenarios. -/
def staleTranslationState : TabState :=
  { languages := [], tafsirLanguages := [], editions := [], tafsirEditions := [],
    isLoadingMetadata := false, settings := sampleSettings,
    savedSettings := [], notices := [], remoteCalls := [] }

/-- Tab state captured while a refresh is already in flight. -/
def busyState : TabState :=
  { staleTranslationState with isLoadingMetadata := true }

/-- Oracles whose tafsir catalog uses the language name "english", absent
from the derived code set of a state configured with tafsir language
"xx". -/
def missTafsirOracles : MetaOracles :=
  { intl := noIntl
    langCatalog := some []
    editionCatalog := fun _ => none
    tafsirCatalog := some [englishTafsirEntry] }

/-- Tab state whose configured tafsir language "xx" is absent from every
derived tafsir language code. -/
def missTafsirState : TabState :=
  { languages := [], tafsirLanguages := [], editions := [], tafsirEditions := [],
    isLoadingMetadata := false,
    settings := { sampleSettings with tafsirLanguage := "xx", tafsir := "" },
    savedSettings := [], notices := [], remoteCalls := [] }

/-- Oracles whose tafsir catalog has only a "german" entry; the filter by
the resolved code "de" then matches nothing, because
`getFullLanguageName` maps "de" to "de" when the locale service is
unavailable. -/
def emptyFilterOracles : MetaOracles :=
  { intl := noIntl
    langCatalog := some ["de"]
    editionCatalog := fun _ => none
    tafsirCatalog := some [germanTafsirEntry] }

/-- Tab state whose language catalog names "de" as "German", with tafsir
language "de" configured. -/
def emptyFilterState : TabState :=
  { languages := [⟨"de", "German"⟩], tafsirLanguages := [], editions := [],
    tafsirEditions := [],
    isLoadingMetadata := false,
    settings := { sampleSettings with tafsirLanguage := "de" },
    savedSettings := [], notices := [], remoteCalls := [] }

end RQV

namespace RQV

/-! ## Theorems -/

/-- Length of the glyph table (ten glyphs). -/
theorem arabicDigitTable_length : arabicDigitTable.data.length = 10 := by decide

/-- Claim C1: Whenever the initial reference lookup of `renderVerse`
succeeds, both subsequent edition lookups are keyed by the canonical
global index returned by that lookup (the `number` field of its payload),
never by the original random draw; in particular, when the canonical index
differs from the draw, every edition lookup of the attempt uses the
canonical index and not the draw. -/
theorem renderVerse_uses_canonical_index
    (net : Net) (draw : Nat) (translation : String) (r : ApiResponse)
    (h1 : net (Request.ayah draw) = some r) (h2 : r.code = 200) :
    (renderVerse net draw translation).1 = attemptRequests draw r translation ∧
    (r.data.number ≠ draw →
      ∀ g e, Request.ayahEdition g e ∈ (renderVerse net draw translation).1 →
        g = r.data.number ∧ g ≠ draw) := by
  have hreq : (renderVerse net draw translation).1 = attemptRequests draw r translation := by
    simp only [renderVerse, h1, h2, ne_eq, not_true_eq_false, if_false]
    cases net (Request.ayahEdition r.data.number uthmaniEdition) <;>
      cases net (Request.ayahEdition r.data.number translation)
    case none.none => rfl
    case none.some => rfl
    case some.none => rfl
    case some.some => split <;> first | rfl | (split <;> rfl)
  refine ⟨hreq, fun hne g e hmem => ?_⟩
  rw [hreq] at hmem
  simp only [attemptRequests, List.mem_cons, List.mem_singleton] at hmem
  rcases hmem with h | h | h | h
  · exact absurd h (by simp)
  · obtain ⟨hg, -⟩ := Request.ayahEdition.inj h
    exact ⟨hg, hg ▸ hne⟩
  · obtain ⟨hg, -⟩ := Request.ayahEdition.inj h
    exact ⟨hg, hg ▸ hne⟩
  · simp at h

/-- Witness for C1: the end-to-end scenario of the specification, a random
draw of 500 renumbered by the lookup to 777. -/
theorem renderVerse_uses_canonical_index_witness :
    (renderVerse renumberingNet 500 "en.itani").1 =
      attemptRequests 500 { code := 200, status := "OK", data := sampleAyah 777 } "en.itani" ∧
    ((777 : Nat) ≠ 500 →
      ∀ g e, Request.ayahEdition g e ∈ (renderVerse renumberingNet 500 "en.itani").1 →
        g = 777 ∧ g ≠ 500) :=
  renderVerse_uses_canonical_index renumberingNet 500 "en.itani"
    { code := 200, status := "OK", data := sampleAyah 777 } rfl rfl

/-- Claim C2: The digit transliteration maps each decimal digit d to the
d-th glyph of the fixed ten-glyph table (0 included, no off-by-one),
transliterates a non-negative number digit by digit preserving order and
most-significant digit first (255 yields glyphs 2, 5, 5), and passes a
character of the decimal rendering that has no glyph mapping through
unchanged rather than throwing. -/
theorem toArabicDigits_spec :
    (∀ d : Fin 10,
      (toArabicDigits (Int.ofNat d.val)).data
        = [arabicDigitTable.data.get (Fin.cast arabicDigitTable_length.symm d)]) ∧
    (∀ n : Nat,
      (toArabicDigits (Int.ofNat n)).data = (Nat.toDigits 10 n).map transliterateChar) ∧
    ((toArabicDigits (Int.ofNat 255)).data
      = [arabicDigitTable.data.get (Fin.cast arabicDigitTable_length.symm 2),
         arabicDigitTable.data.get (Fin.cast arabicDigitTable_length.symm 5),
         arabicDigitTable.data.get (Fin.cast arabicDigitTable_length.symm 5)]) ∧
    (∀ c : Char, ¬ c.isDigit → transliterateChar c = c) ∧
    ((toArabicDigits (-42)).data
      = ['-',
         arabicDigitTable.data.get (Fin.cast arabicDigitTable_length.symm 4),
         arabicDigitTable.data.get (Fin.cast arabicDigitTable_length.symm 2)]) := by
  refine ⟨by decide, fun n => rfl, by decide, fun c hc => ?_, by decide⟩
  simp [transliterateChar, hc]

/-- Witness for C2: the hyphen of a negative decimal rendering has no
glyph mapping and passes through unchanged. -/
theorem toArabicDigits_spec_witness : transliterateChar '-' = '-' :=
  toArabicDigits_spec.2.2.2.1 '-' (by decide)

/-- Claim C3: If any of the three remote calls of a `renderVerse` attempt
rejects, or any response carries a logical code other than 200, then no
partial content is rendered: the skeletons are never removed on that
attempt, no content div is created, and a one-shot retry is scheduled for
exactly 5000 ms instead of the error propagating to the caller. -/
theorem renderVerse_failure_keeps_skeleton
    (net : Net) (draw : Nat) (translation : String)
    (h :
      net (Request.ayah draw) = none ∨
      (∃ r, net (Request.ayah draw) = some r ∧ r.code ≠ 200) ∨
      (∃ r, net (Request.ayah draw) = some r ∧ r.code = 200 ∧
        (net (Request.ayahEdition r.data.number uthmaniEdition) = none ∨
         net (Request.ayahEdition r.data.number translation) = none ∨
         (∃ a t, net (Request.ayahEdition r.data.number uthmaniEdition) = some a ∧
                 net (Request.ayahEdition r.data.number translation) = some t ∧
                 (a.code ≠ 200 ∨ t.code ≠ 200))))) :
    (renderVerse net draw translation).2 = failedCard := by
  rcases h with h | ⟨r, hr, hc⟩ | ⟨r, hr, hc, hrest⟩
  · simp [renderVerse, h]
  · simp [renderVerse, hr, hc]
  · rcases hrest with h2 | h3 | ⟨a, t, ha, ht, hcode⟩
    · simp only [renderVerse, hr, hc]
      cases net (Request.ayahEdition r.data.number translation) <;> simp [h2]
    · simp only [renderVerse, hr, hc]
      cases net (Request.ayahEdition r.data.number uthmaniEdition) <;> simp [h3]
    · simp [renderVerse, hr, hc, ha, ht, hcode]

/-- Witness for C3: with every request rejecting, the card keeps its
loading skeletons and schedules the 5000 ms retry. -/
theorem renderVerse_failure_keeps_skeleton_witness :
    (renderVerse downNet 1 "en.itani").2 = failedCard :=
  renderVerse_failure_keeps_skeleton downNet 1 "en.itani" (Or.inl rfl)

/-- Helper: running a concatenation of event lists runs them in
sequence. -/
theorem runSurface_append (net : Net) (draw : Nat) (translation : String)
    (l1 l2 : List SurfaceEvent) (s : SurfaceState) :
    runSurface net draw translation s (l1 ++ l2)
      = runSurface net draw translation (runSurface net draw translation s l1) l2 := by
  simp [runSurface, List.foldl_append]

/-- Helper: events other than a timer expiry never issue requests. -/
theorem runSurface_no_fire_issued (net : Net) (draw : Nat) (translation : String)
    (evs : List SurfaceEvent) (s : SurfaceState)
    (h : SurfaceEvent.timerFire ∉ evs) :
    (runSurface net draw translation s evs).issuedAfterSchedule = s.issuedAfterSchedule := by
  induction evs generalizing s with
  | nil => rfl
  | cons e evs ih =>
    rcases e with _ | _
    · show (runSurface net draw translation
          (surfaceStep net draw translation s SurfaceEvent.teardown) evs).issuedAfterSchedule
          = s.issuedAfterSchedule
      exact ih _ (fun hmem => h (List.mem_cons_of_mem _ hmem))
    · simp at h

/-- Helper: once the timeout is cleared it can never fire again, so no
later event issues a request. -/
theorem runSurface_cleared_issued (net : Net) (draw : Nat) (translation : String)
    (evs : List SurfaceEvent) (s : SurfaceState)
    (h : s.timerPending = false) :
    (runSurface net draw translation s evs).issuedAfterSchedule = s.issuedAfterSchedule := by
  induction evs generalizing s with
  | nil => rfl
  | cons e evs ih =>
    rcases e with _ | _
    · show (runSurface net draw translation
          (surfaceStep net draw translation s SurfaceEvent.teardown) evs).issuedAfterSchedule
          = s.issuedAfterSchedule
      exact ih _ rfl
    · have hs : surfaceStep net draw translation s SurfaceEvent.timerFire = s := by
        simp [surfaceStep, h]
      show (runSurface net draw translation
          (surfaceStep net draw translation s SurfaceEvent.timerFire) evs).issuedAfterSchedule
          = s.issuedAfterSchedule
      rw [hs]
      exact ih s h

/-- Claim C4: If the rendering surface is torn down before the scheduled
retry fires, the retry never executes: no remote call is issued after the
teardown, because the teardown clears the pending timeout; additionally,
even a timer that fires while the timeout is pending but the card
container detached issues no call, because the callback re-checks
`container.isConnected` before re-rendering. -/
theorem teardown_cancels_retry (net : Net) (draw : Nat) (translation : String)
    (pre post : List SurfaceEvent) (hpre : SurfaceEvent.timerFire ∉ pre) :
    (runSurface net draw translation retryScheduled
        (pre ++ SurfaceEvent.teardown :: post)).issuedAfterSchedule = [] ∧
    (runSurface net draw translation { retryScheduled with attached := false }
        [SurfaceEvent.timerFire]).issuedAfterSchedule = [] := by
  constructor
  · have hsplit : pre ++ SurfaceEvent.teardown :: post
        = (pre ++ [SurfaceEvent.teardown]) ++ post := by simp
    have h1 := runSurface_no_fire_issued net draw translation pre retryScheduled hpre
    have key := runSurface_cleared_issued net draw translation post
      (runSurface net draw translation (runSurface net draw translation retryScheduled pre)
        [SurfaceEvent.teardown]) rfl
    rw [hsplit, runSurface_append, runSurface_append, key]
    exact h1
  · simp [runSurface, surfaceStep, retryScheduled]

/-- Witness for C4: a teardown followed by the timer expiry issues
nothing. -/
theorem teardown_cancels_retry_witness :
    (runSurface downNet 1 "en.itani" retryScheduled
        [SurfaceEvent.teardown, SurfaceEvent.timerFire]).issuedAfterSchedule = [] ∧
    (runSurface downNet 1 "en.itani" { retryScheduled with attached := false }
        [SurfaceEvent.timerFire]).issuedAfterSchedule = [] :=
  teardown_cancels_retry downNet 1 "en.itani" [] [SurfaceEvent.timerFire] (by simp)

/-- Helper: the dropdown-building repairs of `display()` never touch the
busy flag. -/
theorem displayRepair_isLoadingMetadata (s : TabState) :
    (displayRepair s).isLoadingMetadata = s.isLoadingMetadata := by
  unfold displayRepair
  split <;> split <;> simp [saveSettings]

/-- Helper: the dropdown-building repairs of `display()` never touch the
translation language selection. -/
theorem displayRepair_language (s : TabState) :
    (displayRepair s).settings.language = s.settings.language := by
  unfold displayRepair
  split <;> split <;> simp [saveSettings]

/-- Helper: the dropdown-building repairs of `display()` never touch the
translation edition selection. -/
theorem displayRepair_translation (s : TabState) :
    (displayRepair s).settings.translation = s.settings.translation := by
  unfold displayRepair
  split <;> split <;> simp [saveSettings]

/-- Helper: the dropdown-building repairs of `display()` never touch the
edition catalog. -/
theorem displayRepair_editions (s : TabState) :
    (displayRepair s).editions = s.editions := by
  unfold displayRepair
  split <;> split <;> simp [saveSettings]

/-- Helper: the dropdown-building repairs of `display()` only ever append
to the persistence log. -/
theorem displayRepair_savedSettings (s : TabState) :
    ∃ l, (displayRepair s).savedSettings = s.savedSettings ++ l := by
  unfold displayRepair
  split <;> split <;> simp [saveSettings]

/-- Counterexample to C8 as stated: when neither the manual override table
nor the locale-name service produces a name, `getFullLanguageName` returns
the code itself unchanged, not its uppercase form. -/
theorem language_name_fallback_not_uppercase :
    getFullLanguageName noIntl "xx" = "xx" ∧
    getFullLanguageName noIntl "xx" ≠ upperString "xx" := by
  constructor
  · rfl
  · decide

/-- Claim C8, amended: For every raw language code,
`getFullLanguageName` resolves it by checking the manual override table
first (on the lower-cased code), then the locale-name service, and, when
both fail to produce a nonempty name, falls back to the code itself
unchanged. -/
theorem language_name_resolution_amended (intl : String → Option String) (code : String) :
    (∀ n, customLanguageNames (lowerString code) = some n → getFullLanguageName intl code = n) ∧
    (∀ s, customLanguageNames (lowerString code) = none → intl code = some s → s ≠ "" →
      getFullLanguageName intl code = s) ∧
    (customLanguageNames (lowerString code) = none → (intl code = none ∨ intl code = some "") →
      getFullLanguageName intl code = code) := by
  refine ⟨?_, ?_, ?_⟩ <;> unfold getFullLanguageName
  · intro n hn
    rw [hn]
  · intro s h1 h2 h3
    rw [h1, h2]
    simp [h3]
  · intro h1 h
    rw [h1]
    rcases h with h | h
    · rw [h]
    · rw [h]
      simp

/-- Witness for C8 (amended): one code per resolution stage. -/
theorem language_name_resolution_amended_witness :
    getFullLanguageName noIntl "ber" = "Berber" ∧
    getFullLanguageName germanIntl "de" = "German" ∧
    getFullLanguageName noIntl "zz" = "zz" :=
  ⟨(language_name_resolution_amended noIntl "ber").1 "Berber" (by decide),
   (language_name_resolution_amended germanIntl "de").2.1 "German" (by decide) rfl (by decide),
   (language_name_resolution_amended noIntl "zz").2.2 (by decide) (Or.inl rfl)⟩

/-- Claim C9: A call to `fetchMetadata` made while a previous refresh is
still in flight is a silent no-op: the state is returned unchanged, so no
remote call is issued, no notice is raised, and no catalog or settings
field is modified; nothing is queued either, since the state carries no
pending-work field at all. -/
theorem busy_refresh_is_silent_noop (o : MetaOracles) (s : TabState)
    (h : s.isLoadingMetadata = true) :
    fetchMetadata o s = s ∧
    (fetchMetadata o s).remoteCalls = s.remoteCalls ∧
    (fetchMetadata o s).notices = s.notices ∧
    (fetchMetadata o s).settings = s.settings := by
  have he : fetchMetadata o s = s := by
    simp [fetchMetadata, h]
  exact ⟨he, by rw [he], by rw [he], by rw [he]⟩

/-- Witness for C9 at a concrete busy state and concrete oracles. -/
theorem busy_refresh_is_silent_noop_witness :
    fetchMetadata staleTranslationOracles busyState = busyState ∧
    (fetchMetadata staleTranslationOracles busyState).remoteCalls = busyState.remoteCalls ∧
    (fetchMetadata staleTranslationOracles busyState).notices = busyState.notices ∧
    (fetchMetadata staleTranslationOracles busyState).settings = busyState.settings :=
  busy_refresh_is_silent_noop staleTranslationOracles busyState rfl

/-- Claim C10: Every invocation of `fetchMetadata` that actually starts a
refresh leaves `isLoadingMetadata` false afterwards, whatever the oracles
do (every fetch succeeding, any step throwing, any payload malformed),
because the flag is reset in the finally block; a failed refresh can
therefore never leave the resolver permanently busy. -/
theorem refresh_always_resets_busy_flag (o : MetaOracles) (s : TabState)
    (h : s.isLoadingMetadata = false) :
    (fetchMetadata o s).isLoadingMetadata = false := by
  simp only [fetchMetadata, h, Bool.false_eq_true, if_false]
  rw [displayRepair_isLoadingMetadata]

/-- Witness for C10 at a concrete idle state and concrete oracles. -/
theorem refresh_always_resets_busy_flag_witness :
    (fetchMetadata staleTranslationOracles staleTranslationState).isLoadingMetadata = false :=
  refresh_always_resets_busy_flag staleTranslationOracles staleTranslationState rfl

/-- Helper: indexing a concatenation at the length of its left part hits
the first appended element. -/
theorem getElem?_append_middle {α : Type} (l : List α) (x : α) (t : List α) :
    (l ++ x :: t)[l.length]? = some x := by
  induction l with
  | nil => simp
  | cons h l ih => simpa using ih

/-- Claim C6: During a metadata refresh whose tafsir index fetch succeeds,
if the configured tafsir language code is not among the codes just derived
from the fetched tafsir catalog, it is replaced by the code of the first
entry of the name-sorted tafsir language list (or by "en" when that list
is empty), the replacement is persisted — it is the next snapshot appended
to the persistence log — and the tafsir edition catalog is filtered by the
replaced language, not by the stale one. -/
theorem tafsir_language_reconciliation
    (o : MetaOracles) (s : TabState) (tj : List CdnTafsirEdition)
    (hcat : o.tafsirCatalog = some tj)
    (hmiss : (deriveTafsirLanguages s.languages tj).any
        (fun l => l.code = s.settings.tafsirLanguage) = false) :
    ∃ s2, fetchAndProcessTafsirs o s = Except.ok s2 ∧
      s2.settings.tafsirLanguage
        = firstTafsirLanguageCode (deriveTafsirLanguages s.languages tj) ∧
      s2.savedSettings[s.savedSettings.length]?
        = some { s.settings with
                  tafsirLanguage :=
                    firstTafsirLanguageCode (deriveTafsirLanguages s.languages tj) } ∧
      s2.tafsirEditions
        = tafsirEditionsFor o.intl tj
            (firstTafsirLanguageCode (deriveTafsirLanguages s.languages tj)) := by
  simp only [fetchAndProcessTafsirs, saveSettings, hcat, hmiss, Bool.false_eq_true, if_false]
  cases hE : tafsirEditionsFor o.intl tj
      (firstTafsirLanguageCode (deriveTafsirLanguages s.languages tj)) with
  | nil =>
      simp only []
      refine ⟨_, rfl, rfl, ?_, rfl⟩
      rw [List.append_assoc]
      exact getElem?_append_middle _ _ _
  | cons first rest =>
      simp only []
      split
      · refine ⟨_, rfl, rfl, ?_, rfl⟩
        rw [List.append_assoc]
        exact getElem?_append_middle _ _ _
      · refine ⟨_, rfl, rfl, ?_, rfl⟩
        exact getElem?_append_middle _ _ _

/-- Witness for C6: a catalog whose only language name is "english",
against a configured tafsir language "xx" absent from the derived codes. -/
theorem tafsir_language_reconciliation_witness :
    ∃ s2, fetchAndProcessTafsirs missTafsirOracles missTafsirState = Except.ok s2 ∧
      s2.settings.tafsirLanguage
        = firstTafsirLanguageCode
            (deriveTafsirLanguages missTafsirState.languages [englishTafsirEntry]) ∧
      s2.savedSettings[missTafsirState.savedSettings.length]?
        = some { missTafsirState.settings with
                  tafsirLanguage :=
                    firstTafsirLanguageCode
                      (deriveTafsirLanguages missTafsirState.languages [englishTafsirEntry]) } ∧
      s2.tafsirEditions
        = tafsirEditionsFor missTafsirOracles.intl [englishTafsirEntry]
            (firstTafsirLanguageCode
              (deriveTafsirLanguages missTafsirState.languages [englishTafsirEntry])) :=
  tafsir_language_reconciliation missTafsirOracles missTafsirState [englishTafsirEntry]
    rfl (by decide)

/-- Claim C7: During a metadata refresh whose tafsir index fetch succeeds,
if the tafsir edition catalog filtered by the possibly just-replaced
tafsir language is empty, then both the configured tafsir edition id and
its display name are set to the empty string and the cleared settings are
persisted. -/
theorem empty_tafsir_catalog_clears_selection
    (o : MetaOracles) (s : TabState) (tj : List CdnTafsirEdition)
    (hcat : o.tafsirCatalog = some tj)
    (hemp : tafsirEditionsFor o.intl tj
        (resolvedTafsirLanguage (deriveTafsirLanguages s.languages tj)
          s.settings.tafsirLanguage) = []) :
    ∃ s2, fetchAndProcessTafsirs o s = Except.ok s2 ∧
      s2.settings.tafsir = "" ∧ s2.settings.tafsirName = "" ∧
      s2.savedSettings.getLast? = some s2.settings ∧
      s2.tafsirEditions = [] := by
  simp only [fetchAndProcessTafsirs, saveSettings, hcat]
  by_cases hl : ((deriveTafsirLanguages s.languages tj).any
      (fun l => l.code = s.settings.tafsirLanguage)) = true
  · have hres : resolvedTafsirLanguage (deriveTafsirLanguages s.languages tj)
        s.settings.tafsirLanguage = s.settings.tafsirLanguage := by
      simp [resolvedTafsirLanguage, hl]
    rw [hres] at hemp
    simp only [hl, if_true, hemp]
    exact ⟨_, rfl, rfl, rfl, List.getLast?_concat _, rfl⟩
  · have hbool : ((deriveTafsirLanguages s.languages tj).any
        (fun l => l.code = s.settings.tafsirLanguage)) = false := by
      simpa using hl
    have hres : resolvedTafsirLanguage (deriveTafsirLanguages s.languages tj)
        s.settings.tafsirLanguage
        = firstTafsirLanguageCode (deriveTafsirLanguages s.languages tj) := by
      simp [resolvedTafsirLanguage, hbool]
    rw [hres] at hemp
    simp only [hbool, Bool.false_eq_true, if_false, hemp]
    exact ⟨_, rfl, rfl, rfl, List.getLast?_concat _, rfl⟩

/-- Witness for C7: the language catalog names "de" as "German" while the
tafsir catalog carries the language name "german", so the filter keyed by
the resolved code "de" matches nothing and the selection is cleared. -/
theorem empty_tafsir_catalog_clears_selection_witness :
    ∃ s2, fetchAndProcessTafsirs emptyFilterOracles emptyFilterState = Except.ok s2 ∧
      s2.settings.tafsir = "" ∧ s2.settings.tafsirName = "" ∧
      s2.savedSettings.getLast? = some s2.settings ∧
      s2.tafsirEditions = [] :=
  empty_tafsir_catalog_clears_selection emptyFilterOracles emptyFilterState
    [germanTafsirEntry] rfl (by decide)

/-- Helper: a successful run of `fetchAndProcessTafsirs` re-establishes
the tafsir half of the preferences invariant — the configured tafsir
edition id belongs to the filtered tafsir catalog, or both id and display
name are cleared when that catalog is empty — persisting the snapshot
whenever the id changed and raising no notice. -/
theorem fetchAndProcessTafsirs_invariant
    (o : MetaOracles) (s : TabState) (tj : List CdnTafsirEdition)
    (hcat : o.tafsirCatalog = some tj) :
    ∃ s2, fetchAndProcessTafsirs o s = Except.ok s2 ∧
      ((s2.tafsirEditions.any (fun t => t.identifier = s2.settings.tafsir)) = true ∨
        (s2.tafsirEditions = [] ∧ s2.settings.tafsir = "" ∧ s2.settings.tafsirName = "")) ∧
      (s2.settings.tafsir ≠ s.settings.tafsir →
        s2.savedSettings.getLast? = some s2.settings) ∧
      s2.notices = s.notices := by
  simp only [fetchAndProcessTafsirs, saveSettings, hcat]
  by_cases hl : ((deriveTafsirLanguages s.languages tj).any
      (fun l => l.code = s.settings.tafsirLanguage)) = true
  · simp only [hl, if_true]
    cases hE : tafsirEditionsFor o.intl tj s.settings.tafsirLanguage with
    | nil =>
        simp only []
        exact ⟨_, rfl, Or.inr ⟨rfl, rfl, rfl⟩, fun _ => List.getLast?_concat _, rfl⟩
    | cons first rest =>
        simp only []
        split
        · refine ⟨_, rfl, Or.inl ?_, fun _ => List.getLast?_concat _, rfl⟩
          simp
        · rename_i hcond
          have hany : ((first :: rest).any fun t => t.identifier = s.settings.tafsir)
              = true := by
            cases hany2 : ((first :: rest).any fun t => t.identifier = s.settings.tafsir) with
            | false => exact absurd (by simp [hany2]) hcond
            | true => rfl
          exact ⟨_, rfl, Or.inl hany, fun hne => absurd rfl hne, rfl⟩
  · have hbool : ((deriveTafsirLanguages s.languages tj).any
        (fun l => l.code = s.settings.tafsirLanguage)) = false := by
      simpa using hl
    simp only [hbool, Bool.false_eq_true, if_false]
    cases hE : tafsirEditionsFor o.intl tj
        (firstTafsirLanguageCode (deriveTafsirLanguages s.languages tj)) with
    | nil =>
        simp only []
        exact ⟨_, rfl, Or.inr ⟨rfl, rfl, rfl⟩, fun _ => List.getLast?_concat _, rfl⟩
    | cons first rest =>
        simp only []
        split
        · refine ⟨_, rfl, Or.inl ?_, fun _ => List.getLast?_concat _, rfl⟩
          simp
        · rename_i hcond
          have hany : ((first :: rest).any fun t => t.identifier = s.settings.tafsir)
              = true := by
            cases hany2 : ((first :: rest).any fun t => t.identifier = s.settings.tafsir) with
            | false => exact absurd (by simp [hany2]) hcond
            | true => rfl
          exact ⟨_, rfl, Or.inl hany, fun hne => absurd rfl hne, rfl⟩

/-- Helper: the translation-language change handler substitutes the first
filtered edition of the newly selected language, keeps it inside the
refreshed edition catalog, and persists a snapshot carrying both the new
language and the new translation id. -/
theorem onTranslationLanguageChange_repairs
    (o : MetaOracles) (val : String) (s : TabState)
    (ed : List Edition) (first : Edition) (rest : List Edition)
    (hE1 : o.editionCatalog val = some ed)
    (hE2 : ed.filter isTextTranslation = first :: rest) :
    (onTranslationLanguageChange o val s).settings.translation = first.identifier ∧
    ((onTranslationLanguageChange o val s).editions.any
      (fun e => e.identifier = first.identifier)) = true ∧
    ∃ saved ∈ (onTranslationLanguageChange o val s).savedSettings,
      saved.language = val ∧ saved.translation = first.identifier := by
  simp only [onTranslationLanguageChange, fetchTranslationEditions, hE1, hE2]
  refine ⟨?_, ?_, ?_⟩
  · rw [displayRepair_translation]
    simp [saveSettings]
  · rw [displayRepair_editions]
    simp [saveSettings]
  · obtain ⟨l, hl⟩ := displayRepair_savedSettings _
    rw [hl]
    refine ⟨{ s.settings with language := val, translation := first.identifier }, ?_, rfl, rfl⟩
    simp [saveSettings]

/-- Claim C5, amended: The resolver maintains the tafsir half of the
preferences invariant: a refresh whose tafsir index fetch succeeds leaves
the configured tafsir edition id inside the tafsir catalog filtered by the
configured tafsir language — or clears both the id and the display name
when that filtered catalog is empty — persisting the snapshot immediately
whenever the id changed and raising no notice.  The translation half is
repaired only by the language-switch handler, which, when the freshly
filtered catalog of the newly selected language is nonempty, substitutes
its first edition and persists the repaired value immediately; a plain
refresh does not repair a stale translation edition id. -/
theorem preferences_invariant_repair_amended
    (o : MetaOracles) (s : TabState) (tj : List CdnTafsirEdition)
    (val : String) (ed : List Edition) (first : Edition) (rest : List Edition)
    (hcat : o.tafsirCatalog = some tj)
    (hE1 : o.editionCatalog val = some ed)
    (hE2 : ed.filter isTextTranslation = first :: rest) :
    (∃ s2, fetchAndProcessTafsirs o s = Except.ok s2 ∧
      ((s2.tafsirEditions.any (fun t => t.identifier = s2.settings.tafsir)) = true ∨
        (s2.tafsirEditions = [] ∧ s2.settings.tafsir = "" ∧ s2.settings.tafsirName = "")) ∧
      (s2.settings.tafsir ≠ s.settings.tafsir →
        s2.savedSettings.getLast? = some s2.settings) ∧
      s2.notices = s.notices) ∧
    ((onTranslationLanguageChange o val s).settings.translation = first.identifier ∧
      ((onTranslationLanguageChange o val s).editions.any
        (fun e => e.identifier = first.identifier)) = true ∧
      ∃ saved ∈ (onTranslationLanguageChange o val s).savedSettings,
        saved.language = val ∧ saved.translation = first.identifier) :=
  ⟨fetchAndProcessTafsirs_invariant o s tj hcat,
   onTranslationLanguageChange_repairs o val s ed first rest hE1 hE2⟩

/-- Witness for C5 (amended) at the concrete refresh scenario: the tafsir
index has one "en" entry and the "en" translation catalog one edition. -/
theorem preferences_invariant_repair_amended_witness :
    (∃ s2, fetchAndProcessTafsirs staleTranslationOracles staleTranslationState
        = Except.ok s2 ∧
      ((s2.tafsirEditions.any (fun t => t.identifier = s2.settings.tafsir)) = true ∨
        (s2.tafsirEditions = [] ∧ s2.settings.tafsir = "" ∧ s2.settings.tafsirName = "")) ∧
      (s2.settings.tafsir ≠ staleTranslationState.settings.tafsir →
        s2.savedSettings.getLast? = some s2.settings) ∧
      s2.notices = staleTranslationState.notices) ∧
    ((onTranslationLanguageChange staleTranslationOracles "en"
        staleTranslationState).settings.translation = sampleEdition.identifier ∧
      ((onTranslationLanguageChange staleTranslationOracles "en"
          staleTranslationState).editions.any
        (fun e => e.identifier = sampleEdition.identifier)) = true ∧
      ∃ saved ∈ (onTranslationLanguageChange staleTranslationOracles "en"
          staleTranslationState).savedSettings,
        saved.language = "en" ∧ saved.translation = sampleEdition.identifier) :=
  preferences_invariant_repair_amended staleTranslationOracles staleTranslationState
    [sampleTafsirEntry] "en" [sampleEdition] sampleEdition [] rfl rfl (by decide)

/-- Counterexample to C5 as stated: a refresh in which every remote call
succeeds, the translation catalog for the configured language is nonempty,
and the configured translation edition id is absent from it, terminates
with the stale translation edition id unchanged and nothing persisted —
the refresh exposes a violation of the translation half of the invariant
and does not repair it. -/
theorem refresh_does_not_repair_translation :
    (fetchMetadata staleTranslationOracles staleTranslationState).settings.translation
        = "bad.translation" ∧
    (fetchMetadata staleTranslationOracles staleTranslationState).editions.map
        (fun e => e.identifier) = ["en.itani"] ∧
    ((fetchMetadata staleTranslationOracles staleTranslationState).editions.any
        (fun e =>
          e.identifier
            = (fetchMetadata staleTranslationOracles staleTranslationState).settings.translation))
        = false ∧
    (fetchMetadata staleTranslationOracles staleTranslationState).savedSettings = [] := by
  refine ⟨?_, ?_, ?_, ?_⟩ <;> rfl

end RQV

